import Mathlib

/-!
Shallow embedding of the conversation state machine of the `gdg-job`
Slack hiring bot (`src/app.py`, with its collaborators
`linkedin_poster.post_job`, `state_manager.save_job_to_file`,
`job_description_agent.generate_job_description`,
`llm_agent.process_with_adk_agent` treated as oracle parameters).

JSON values from the classifier are modelled by the inductive `JValue`;
a failed `json.loads` is the `none` case of an `Option JValue` input.
Outbound Slack messages are modelled by the inductive `OutMsg`, one
constructor per `chat_postMessage` call site in `app.py`, carrying the
dynamic data interpolated at that site.
-/

namespace GdgJob

/-- A parsed JSON value (result of `json.loads`). -/
inductive JValue where
  | null : JValue
  | bool (b : Bool) : JValue
  | num (n : Int) : JValue
  | str (s : String) : JValue
  | arr (xs : List JValue) : JValue
  | obj (kvs : List (String × JValue)) : JValue

/-- Key lookup in a JSON object's key/value list (Python `d[k]` / `k in d`,
first match; Python dicts hold each key once). -/
def jlookup (kvs : List (String × JValue)) (k : String) : Option JValue :=
  match kvs with
  | [] => none
  | (k', v) :: rest => if k' = k then some v else jlookup rest k

/-- Python `k in d`. -/
def hasKey (kvs : List (String × JValue)) (k : String) : Bool :=
  (jlookup kvs k).isSome

/-- Python `d == "lit"` for a JSON value against a string literal. -/
def JValue.isStrLit : JValue → String → Bool
  | .str s, t => s = t
  | _, _ => false

/-- Python truthiness test `not v` (True on falsy values). -/
def pyFalsy : JValue → Bool
  | .null => true
  | .bool b => !b
  | .num n => n = 0
  | .str s => s = ""
  | .arr xs => xs.isEmpty
  | .obj kvs => kvs.isEmpty

/-- Python whitespace characters for `str.strip()` (ASCII range). -/
def pySpace (c : Char) : Bool :=
  c = ' ' || c = '\t' || c = '\n' || c = '\x0d' || c = '\x0b' || c = '\x0c'

/-- Python `s.strip()`: drop leading and trailing whitespace. -/
def pyStrip (s : String) : String :=
  ⟨((s.data.dropWhile pySpace).reverse.dropWhile pySpace).reverse⟩

/-- Python `s.replace('**', '')` specialised to that fixed pattern:
the left-to-right scan deleting each non-overlapping `**` occurrence. -/
def stripBoldStars : List Char → List Char
  | '*' :: '*' :: rest => stripBoldStars rest
  | c :: rest => c :: stripBoldStars rest
  | [] => []

/-- `job_description.replace('**', '')` (`app.py` line 176). -/
def pyReplaceBold (s : String) : String := ⟨stripBoldStars s.data⟩

/-- The five recognized entity keys, in the fixed priority order used both by
`validate_llm_response` (`required_entities`) and by `process_conversation`
(`follow_up_order`), `app.py` lines 59 and 126. -/
def required_entities : List String :=
  ["job_title", "experience", "skills", "job_type", "location"]

/-- The all-null entities object built by the fallback branches of
`validate_llm_response` (`app.py` lines 71–77 and 83–89). -/
def allNullEntities : List (String × JValue) :=
  [("job_title", .null), ("experience", .null), ("skills", .null),
   ("job_type", .null), ("location", .null)]

/-- The default response returned by both `except` branches of
`validate_llm_response`: `{"intent": "not_hiring", "entities": all-null}`. -/
def defaultResponse : JValue :=
  .obj [("intent", .str "not_hiring"), ("entities", .obj allNullEntities)]

/-- Python `d[k] = v` on a dict modelled as a key/value list: overwrite in
place if present, else append at the end (insertion order, as CPython). -/
def jinsert (kvs : List (String × JValue)) (k : String) (v : JValue) :
    List (String × JValue) :=
  match kvs with
  | [] => [(k, v)]
  | (k', v') :: rest =>
      if k' = k then (k, v) :: rest else (k', v') :: jinsert rest k v

/-- One iteration of the key-patching loop of `validate_llm_response`
(`app.py` lines 60–62): if the required entity is absent, set it to null. -/
def patchStep (acc : List (String × JValue)) (e : String) :
    List (String × JValue) :=
  if hasKey acc e then acc else jinsert acc e .null

/-- The key-patching loop of `validate_llm_response` (`app.py` lines 60–62):
for each required entity absent from `entities`, set it to null. -/
def patchEntities (ents : List (String × JValue)) : List (String × JValue) :=
  required_entities.foldl patchStep ents

/-- The `try` body of `validate_llm_response` (`app.py` lines 40–64):
returns the patched data, or the `ValueError` message it raises. -/
def validateBody (data : JValue) : Except String JValue :=
  match data with
  | .obj kvs =>
      if !hasKey kvs "intent" then .error "Missing intent field"
      else if !hasKey kvs "entities" then .error "Missing entities field"
      else
        match jlookup kvs "entities" with
        | some (.obj ents) => .ok (.obj (jinsert kvs "entities" (.obj (patchEntities ents))))
        | _ => .error "Entities field is not a dictionary"
  | _ => .error "Response is not a dictionary"

/-- `validate_llm_response` (`app.py` lines 38–90). The input is the result
of `json.loads` on the raw classifier string; `none` is a
`JSONDecodeError`. Both the decode error and every `ValueError` from the
body degrade to `defaultResponse`. -/
def validate_llm_response (parsed : Option JValue) : JValue :=
  match parsed with
  | none => defaultResponse
  | some data =>
      match validateBody data with
      | .ok d => d
      | .error _ => defaultResponse

/-- Well-formedness of a parsed classifier output: exactly the condition
under which `validateBody` succeeds. -/
def wellFormed (parsed : Option JValue) : Bool :=
  match parsed with
  | none => false
  | some (.obj kvs) =>
      hasKey kvs "intent" && hasKey kvs "entities" &&
        (match jlookup kvs "entities" with
         | some (.obj _) => true
         | _ => false)
  | some _ => false

/-- `data.get(k)` on a validated (object) response: `None` when absent. -/
def dataGet (data : JValue) (k : String) : JValue :=
  match data with
  | .obj kvs => (jlookup kvs k).getD .null
  | _ => .null

/-- `data["entities"]` read back as a key/value list (always an object for
validator output). -/
def entitiesOf (data : JValue) : List (String × JValue) :=
  match data with
  | .obj kvs =>
      match jlookup kvs "entities" with
      | some (.obj ents) => ents
      | _ => []
  | _ => []

/-- One conversation state: the per-channel dict stored in
`conversation_states` (`app.py`). Keys `user_id` and `messages` are always
present; `final_entities`, `editing`, `original_entities` and `processed`
are optional dict keys (`Option`, with the `state.get(k, default)` defaults
applied at the read sites). -/
structure Conv where
  user_id : String
  messages : List String
  final_entities : Option (List (String × JValue))
  editing : Option Bool
  original_entities : Option (List (String × JValue))
  processed : Option Bool

/-- The fresh single-message conversation dict
`{"user_id": user, "messages": [text]}` created at `app.py` lines 228/234. -/
def freshConv (user text : String) : Conv :=
  ⟨user, [text], none, none, none, none⟩

/-- The four `action_id`s of the `jd_approval_buttons` block
(`app.py` lines 180–185). -/
def jdApprovalButtons : List String :=
  ["jd_post_yes", "jd_draft", "jd_edit", "jd_no"]

/-- The fixed follow-up questions dict of `process_conversation`
(`app.py` lines 131–137). -/
def questionFor (entity : String) : String :=
  if entity = "job_title" then "What is the job title/role you're hiring for?"
  else if entity = "experience" then "What is the required level of experience (e.g., 2 years, Senior)?"
  else if entity = "skills" then "What specific skills are required for this role?"
  else if entity = "job_type" then "Is this a full-time, part-time, or contract position?"
  else if entity = "location" then "What is the location for this role (e.g., Remote, specific city)?"
  else ""

/-- An outbound Slack message: one constructor per `chat_postMessage`
call site in `app.py`, carrying the data interpolated there. -/
inductive OutMsg where
  | quotaExceeded : OutMsg
  | followUp (entity question : String) : OutMsg
  | clarifyJobTitle : OutMsg
  | plainConfirmation (fields : List (String × JValue)) : OutMsg
  | editConfirmation (fields : List (String × JValue × JValue)) : OutMsg
  | generating : OutMsg
  | jdButtons (description : String) (buttons : List String) : OutMsg
  | jdError : OutMsg
  | notHiring : OutMsg
  | unclear : OutMsg
  | postSuccess (link : String) : OutMsg
  | postEnded : OutMsg
  | postFailure (reason : String) : OutMsg
  | postException : OutMsg
  | draftSuccess (job_id : Bool) : OutMsg
  | draftEnded : OutMsg
  | draftFailure : OutMsg
  | editPrompt : OutMsg
  | cancelled : OutMsg
  | startFresh : OutMsg
  | lostContext : OutMsg

/-- `entities.get(e) is None` for the validated entities dict: true when
the key is absent or its value is JSON null. -/
def entIsNone (ents : List (String × JValue)) (e : String) : Bool :=
  match jlookup ents e with
  | none => true
  | some .null => true
  | some _ => false

/-- `next((e for e in follow_up_order if entities.get(e) is None), None)`
(`app.py` line 127): the first entity of the priority order whose value is
missing. -/
def firstMissing (ents : List (String × JValue)) : Option String :=
  required_entities.find? (entIsNone ents)

/-- `entities.get(e)` (absent key gives Python `None`). -/
def entGet (ents : List (String × JValue)) (e : String) : JValue :=
  (jlookup ents e).getD .null

/-- `entities.get(e, 'N/A')` as used by the confirmation f-strings
(`app.py` lines 155–168): the stored value if the key exists (even when
null), else the string `N/A`. -/
def entGetNA (ents : List (String × JValue)) (e : String) : JValue :=
  (jlookup ents e).getD (.str "N/A")

/-- Result of one `process_conversation` run: the messages posted, the
updated conversation dict, whether an uncaught exception propagated to the
caller (the `.strip()` call on a non-string `job_title`, `app.py` line
146), and whether the classifier collaborator was invoked. -/
structure PCResult where
  msgs : List OutMsg
  conv : Conv
  raised : Bool
  llmCalled : Bool

/-- `process_conversation` (`app.py` lines 92–200) for one channel.
`parsed` is the `json.loads` result of the classifier's response to the
newline-joined history (`none` = not valid JSON); `gen` is the outcome of
`job_description_agent.generate_job_description` (`.error` = it raised). -/
def process_conversation (conv : Conv) (parsed : Option JValue)
    (gen : Except Unit String) : PCResult :=
  if conv.messages.isEmpty then ⟨[], conv, false, false⟩
  else
    let data := validate_llm_response parsed
    if (dataGet data "intent").isStrLit "quota_exceeded" then
      ⟨[.quotaExceeded], conv, false, true⟩
    else if (dataGet data "intent").isStrLit "hiring_request"
        && (match data with | .obj kvs => hasKey kvs "entities" | _ => false) then
      let entities := entitiesOf data
      match firstMissing entities with
      | some e => ⟨[.followUp e (questionFor e)], conv, false, true⟩
      | none =>
          let jt := entGet entities "job_title"
          if pyFalsy jt then ⟨[.clarifyJobTitle], conv, false, true⟩
          else
            match jt with
            | .str s =>
                if pyStrip s = "" then ⟨[.clarifyJobTitle], conv, false, true⟩
                else
                  let confirmation :=
                    if conv.editing.getD false then
                      OutMsg.editConfirmation (required_entities.map fun f =>
                        (f, entGetNA entities f,
                         entGetNA (conv.original_entities.getD []) f))
                    else
                      OutMsg.plainConfirmation (required_entities.map fun f =>
                        (f, entGetNA entities f))
                  match gen with
                  | .ok desc =>
                      ⟨[confirmation, .generating,
                        .jdButtons (pyReplaceBold desc) jdApprovalButtons],
                       { conv with final_entities := some entities }, false, true⟩
                  | .error _ =>
                      ⟨[confirmation, .generating, .jdError], conv, false, true⟩
            | _ => ⟨[], conv, true, true⟩
    else if (dataGet data "intent").isStrLit "not_hiring" then
      ⟨[.notHiring], conv, false, true⟩
    else
      ⟨[.unclear], conv, false, true⟩

/-- The per-channel conversation store `conversation_states`. -/
def Store := String → Option Conv

/-- `conversation_states[ch] = c`. -/
def Store.set (store : Store) (ch : String) (c : Conv) : Store :=
  fun x => if x = ch then some c else store x

/-- `del conversation_states[ch]`. -/
def Store.erase (store : Store) (ch : String) : Store :=
  fun x => if x = ch then none else store x

/-- Result of handling one inbound message event. -/
structure EvResult where
  store : Store
  msgs : List OutMsg
  llmCalled : Bool

/-- The message-event body of `process_slack_events` (`app.py` lines
210–237), for a non-bot, no-subtype message event; `parsed` and `gen` are
the collaborator oracles threaded to `process_conversation`. -/
def process_slack_events (store : Store) (channel user text : String)
    (parsed : Option JValue) (gen : Except Unit String) : EvResult :=
  match store channel with
  | some conv =>
      if user = conv.user_id then
        if conv.messages.contains text then
          ⟨store, [], false⟩
        else
          let conv1 := { conv with messages := conv.messages ++ [text] }
          let r := process_conversation conv1 parsed gen
          ⟨store.set channel r.conv, r.msgs, r.llmCalled⟩
      else
        let r := process_conversation (freshConv user text) parsed gen
        ⟨store.set channel r.conv, r.msgs, r.llmCalled⟩
  | none =>
      let r := process_conversation (freshConv user text) parsed gen
      ⟨store.set channel r.conv, r.msgs, r.llmCalled⟩

/-- Result of handling one button interaction: the updated store, the
updated `recently_completed` marker set, and the messages posted. -/
structure IntResult where
  store : Store
  recently : String → Bool
  msgs : List OutMsg

/-- Python truthiness of `conversation_states[ch].get("final_entities")`
(`if not entities`, `app.py` line 251): falsy when the key is absent or
holds an empty dict. -/
def finalEntsTruthy : Option (List (String × JValue)) → Bool
  | none => false
  | some [] => false
  | some (_ :: _) => true

/-- The interactive-event body of `handle_interaction` (`app.py` lines
243–322). `postRes` is the outcome of `linkedin_poster.post_job`
(`(success, message_or_url)`; `.error` = the call raised), `draftRes` the
outcome of `state_manager.save_job_to_file` (a Bool; `.error` = raised).
An action that matches no `elif` arm, and every failure arm that does not
`return`, falls through to the `del conversation_states[channel_id]` at
line 320. -/
def handle_interaction (store : Store) (recently : String → Bool)
    (channel user action : String) (postRes : Except Unit (Bool × String))
    (draftRes : Except Unit Bool) : IntResult :=
  match store channel with
  | some conv =>
      if user = conv.user_id then
        if !finalEntsTruthy conv.final_entities then
          ⟨store, recently, [.lostContext]⟩
        else
          let entities := conv.final_entities.getD []
          if action = "jd_post_yes" then
            match postRes with
            | .ok (true, link) =>
                ⟨store.erase channel,
                 fun ch => if ch = channel then true else recently ch,
                 [.postSuccess link, .postEnded]⟩
            | .ok (false, reason) =>
                ⟨store.erase channel, recently, [.postFailure reason]⟩
            | .error _ =>
                ⟨store.erase channel, recently, [.postException]⟩
          else if action = "jd_draft" then
            match draftRes with
            | .ok true =>
                ⟨store.erase channel,
                 fun ch => if ch = channel then true else recently ch,
                 [.draftSuccess true, .draftEnded]⟩
            | .ok false =>
                ⟨store.erase channel, recently, [.draftFailure]⟩
            | .error _ =>
                ⟨store.erase channel, recently, [.draftFailure]⟩
          else if action = "jd_edit" then
            let conv' := { conv with
              processed := some false
              editing := some true
              original_entities := some entities }
            ⟨store.set channel conv', recently, [.editPrompt]⟩
          else if action = "jd_no" then
            ⟨store.erase channel, recently, [.cancelled, .startFresh]⟩
          else
            ⟨store.erase channel, recently, []⟩
      else
        ⟨store, recently, []⟩
  | none => ⟨store, recently, []⟩

/-! ### Concrete example inputs (used by witnesses and counterexamples) -/

/-- A fully-filled validated entities object. -/
def exEntities : List (String × JValue) :=
  [("job_title", .str "Backend Developer"), ("experience", .str "3 years"),
   ("skills", .str "Node"), ("job_type", .str "full-time"),
   ("location", .str "Remote")]

/-- A classifier output with all five entities filled. -/
def exGoodParsed : Option JValue :=
  some (.obj [("intent", .str "hiring_request"), ("entities", .obj exEntities)])

/-- A classifier output with only `job_title` filled. -/
def exMissingParsed : Option JValue :=
  some (.obj [("intent", .str "hiring_request"),
    ("entities", .obj [("job_title", .str "Backend Developer")])])

/-- A classifier output whose `job_title` is a blank (whitespace) string. -/
def exBlankParsed : Option JValue :=
  some (.obj [("intent", .str "hiring_request"),
    ("entities", .obj [("job_title", .str "  "), ("experience", .str "3 years"),
      ("skills", .str "Node"), ("job_type", .str "full-time"),
      ("location", .str "Remote")])])

/-- A classifier output whose entities object carries an explicit empty-string
`job_title`. -/
def exEmptyTitleParsed : Option JValue :=
  some (.obj [("intent", .str "hiring_request"),
    ("entities", .obj [("job_title", .str "")])])

/-- A live conversation owned by `U1` with two history messages. -/
def exConvTwoMsgs : Conv := ⟨"U1", ["we are hiring a dev", "3 years"], none, none, none, none⟩

/-- A store holding `exConvTwoMsgs` in channel `C`. -/
def exStoreTwoMsgs : Store := fun ch => if ch = "C" then some exConvTwoMsgs else none

/-- A conversation in the confirming stage: `final_entities` is present. -/
def exConfirmConv : Conv := ⟨"U1", ["we are hiring a dev"], some exEntities, none, none, none⟩

/-- A store holding `exConfirmConv` in channel `C`. -/
def exConfirmStore : Store := fun ch => if ch = "C" then some exConfirmConv else none

/-- A conversation whose `final_entities` key is absent. -/
def exNoFinalConv : Conv := ⟨"U1", ["we are hiring a dev"], none, none, none, none⟩

/-- A store holding `exNoFinalConv` in channel `C`. -/
def exNoFinalStore : Store := fun ch => if ch = "C" then some exNoFinalConv else none

/-! ### Helper lemmas about the validator's dict operations -/

theorem jlookup_jinsert_self (kvs : List (String × JValue)) (k : String)
    (v : JValue) : jlookup (jinsert kvs k v) k = some v := by
  induction kvs with
  | nil => simp [jinsert, jlookup]
  | cons hd tl ih =>
      obtain ⟨k', v'⟩ := hd
      by_cases h : k' = k
      · simp [jinsert, h, jlookup]
      · simp [jinsert, h, jlookup, ih]

theorem jlookup_jinsert_ne (kvs : List (String × JValue)) (k k' : String)
    (v : JValue) (h : k' ≠ k) :
    jlookup (jinsert kvs k v) k' = jlookup kvs k' := by
  induction kvs with
  | nil => simp [jinsert, jlookup, Ne.symm h]
  | cons hd tl ih =>
      obtain ⟨k₀, v₀⟩ := hd
      by_cases h0 : k₀ = k
      · subst h0
        simp [jinsert, jlookup, Ne.symm h]
      · simp only [jinsert, h0, if_false]
        by_cases h1 : k₀ = k'
        · simp [jlookup, h1]
        · simp [jlookup, h1, ih]

theorem jlookup_patchStep_preserve (acc : List (String × JValue))
    (k e : String) (v : JValue) (h : jlookup acc e = some v) :
    jlookup (patchStep acc k) e = some v := by
  unfold patchStep
  by_cases hk : hasKey acc k
  · simp [hk, h]
  · simp only [hk, if_false, Bool.false_eq_true]
    by_cases he : e = k
    · subst he
      simp [hasKey, h] at hk
    · rw [jlookup_jinsert_ne _ _ _ _ he]
      exact h

theorem jlookup_foldl_preserve (ks : List String)
    (ents : List (String × JValue)) (e : String) (v : JValue)
    (h : jlookup ents e = some v) :
    jlookup (ks.foldl patchStep ents) e = some v := by
  induction ks generalizing ents with
  | nil => exact h
  | cons k rest ih =>
      exact ih (patchStep ents k) (jlookup_patchStep_preserve ents k e v h)

theorem hasKey_foldl_of_mem (ks : List String) (ents : List (String × JValue))
    (e : String) (he : e ∈ ks) :
    hasKey (ks.foldl patchStep ents) e = true := by
  induction ks generalizing ents with
  | nil => cases he
  | cons k rest ih =>
      rcases List.mem_cons.mp he with rfl | hmem
      · have hk : ∃ v, jlookup (patchStep ents e) e = some v := by
          unfold patchStep
          by_cases hk : hasKey ents e
          · rcases Option.isSome_iff_exists.mp hk with ⟨v, hv⟩
            exact ⟨v, by simp [hk, hv]⟩
          · exact ⟨.null, by simp [hk, jlookup_jinsert_self]⟩
        rcases hk with ⟨v, hv⟩
        have := jlookup_foldl_preserve rest (patchStep ents e) e v hv
        simp [List.foldl_cons, hasKey, this]
      · simp only [List.foldl_cons]
        exact ih (patchStep ents k) hmem

theorem jlookup_foldl_null_of_missing (ks : List String)
    (ents : List (String × JValue)) (e : String) (he : e ∈ ks)
    (h : jlookup ents e = none) :
    jlookup (ks.foldl patchStep ents) e = some .null := by
  induction ks generalizing ents with
  | nil => cases he
  | cons k rest ih =>
      rcases List.mem_cons.mp he with rfl | hmem
      · have hk : hasKey ents e = false := by simp [hasKey, h]
        have hstep : jlookup (patchStep ents e) e = some .null := by
          unfold patchStep
          simp [hk, jlookup_jinsert_self]
        simp only [List.foldl_cons]
        exact jlookup_foldl_preserve rest (patchStep ents e) e .null hstep
      · by_cases hke : k = e
        · subst hke
          have hk : hasKey ents k = false := by simp [hasKey, h]
          have hstep : jlookup (patchStep ents k) k = some .null := by
            unfold patchStep
            simp [hk, jlookup_jinsert_self]
          simp only [List.foldl_cons]
          exact jlookup_foldl_preserve rest (patchStep ents k) k .null hstep
        · have hstep : jlookup (patchStep ents k) e = none := by
            unfold patchStep
            by_cases hk : hasKey ents k
            · simp [hk, h]
            · simp only [hk, if_false, Bool.false_eq_true]
              rw [jlookup_jinsert_ne _ _ _ _ (fun hh => hke (hh.symm))]
              exact h
          simp only [List.foldl_cons]
          exact ih (patchStep ents k) hmem hstep

/-! ### Frame lemmas for `process_conversation` -/

theorem pc_user_id (conv : Conv) (parsed : Option JValue)
    (gen : Except Unit String) :
    (process_conversation conv parsed gen).conv.user_id = conv.user_id := by
  unfold process_conversation
  dsimp only
  repeat' split
  all_goals rfl

theorem pc_messages (conv : Conv) (parsed : Option JValue)
    (gen : Except Unit String) :
    (process_conversation conv parsed gen).conv.messages = conv.messages := by
  unfold process_conversation
  dsimp only
  repeat' split
  all_goals rfl

theorem pc_editing (conv : Conv) (parsed : Option JValue)
    (gen : Except Unit String) :
    (process_conversation conv parsed gen).conv.editing = conv.editing := by
  unfold process_conversation
  dsimp only
  repeat' split
  all_goals rfl

theorem pc_original_entities (conv : Conv) (parsed : Option JValue)
    (gen : Except Unit String) :
    (process_conversation conv parsed gen).conv.original_entities =
      conv.original_entities := by
  unfold process_conversation
  dsimp only
  repeat' split
  all_goals rfl

theorem pc_processed (conv : Conv) (parsed : Option JValue)
    (gen : Except Unit String) :
    (process_conversation conv parsed gen).conv.processed = conv.processed := by
  unfold process_conversation
  dsimp only
  repeat' split
  all_goals rfl

theorem pc_llmCalled (conv : Conv) (parsed : Option JValue)
    (gen : Except Unit String) (h : conv.messages.isEmpty = false) :
    (process_conversation conv parsed gen).llmCalled = true := by
  unfold process_conversation
  dsimp only
  simp only [h, Bool.false_eq_true, if_false]
  repeat' split
  all_goals rfl

/-- The validator's output is always an object carrying an `entities` key. -/
theorem validate_obj_hasEntities (parsed : Option JValue) :
    (match validate_llm_response parsed with
     | .obj kvs => hasKey kvs "entities"
     | _ => false) = true := by
  match parsed with
  | none => rfl
  | some .null => rfl
  | some (.bool b) => rfl
  | some (.num n) => rfl
  | some (.str s) => rfl
  | some (.arr xs) => rfl
  | some (.obj kvs) =>
      by_cases h1 : hasKey kvs "intent"
      · by_cases h2 : hasKey kvs "entities"
        · unfold validate_llm_response validateBody
          simp only [h1, h2, Bool.not_true, Bool.false_eq_true, if_false]
          cases hv : jlookup kvs "entities" with
          | none => simp [hasKey, hv] at h2
          | some v =>
              cases v <;> try rfl
              simp [hasKey, jlookup_jinsert_self]
        · unfold validate_llm_response validateBody
          simp only [h1, h2, Bool.not_true, Bool.not_false, if_true,
            Bool.false_eq_true, if_false]
          rfl
      · unfold validate_llm_response validateBody
        simp only [h1, Bool.not_true, Bool.not_false, if_true,
          Bool.false_eq_true, if_false]
        rfl

/-! ### Branch reductions for `process_conversation` on a hiring request -/

/-- Reduction: some entity is still missing ⇒ the fixed follow-up question
for the first missing one, state unchanged. -/
theorem pc_followup_reduction (conv : Conv) (parsed : Option JValue)
    (gen : Except Unit String) (e : String)
    (hmsg : conv.messages.isEmpty = false)
    (hintent : dataGet (validate_llm_response parsed) "intent" =
      .str "hiring_request")
    (hfm : firstMissing (entitiesOf (validate_llm_response parsed)) = some e) :
    process_conversation conv parsed gen =
      ⟨[.followUp e (questionFor e)], conv, false, true⟩ := by
  have hquota : (dataGet (validate_llm_response parsed) "intent").isStrLit
      "quota_exceeded" = false := by rw [hintent]; rfl
  have hh1 : (dataGet (validate_llm_response parsed) "intent").isStrLit
      "hiring_request" = true := by rw [hintent]; rfl
  have hh2 := validate_obj_hasEntities parsed
  unfold process_conversation
  dsimp only
  simp only [hmsg, Bool.false_eq_true, if_false, hquota, hh1, hh2,
    Bool.true_and, if_true, hfm]

/-- Reduction: no entity missing but `job_title` is a blank string ⇒ the
clarification request, state unchanged. -/
theorem pc_blank_reduction (conv : Conv) (parsed : Option JValue)
    (gen : Except Unit String) (s : String)
    (hmsg : conv.messages.isEmpty = false)
    (hintent : dataGet (validate_llm_response parsed) "intent" =
      .str "hiring_request")
    (hfm : firstMissing (entitiesOf (validate_llm_response parsed)) = none)
    (hjt : entGet (entitiesOf (validate_llm_response parsed)) "job_title" =
      .str s)
    (hs : pyStrip s = "") :
    process_conversation conv parsed gen =
      ⟨[.clarifyJobTitle], conv, false, true⟩ := by
  have hquota : (dataGet (validate_llm_response parsed) "intent").isStrLit
      "quota_exceeded" = false := by rw [hintent]; rfl
  have hh1 : (dataGet (validate_llm_response parsed) "intent").isStrLit
      "hiring_request" = true := by rw [hintent]; rfl
  have hh2 := validate_obj_hasEntities parsed
  unfold process_conversation
  dsimp only
  simp only [hmsg, Bool.false_eq_true, if_false, hquota, hh1, hh2,
    Bool.true_and, if_true, hfm, hjt]
  by_cases hse : s = ""
  · simp [pyFalsy, hse]
  · simp [pyFalsy, hse, hs]

/-- Reduction: no entity missing, `job_title` a non-blank string, and the
description generator succeeds ⇒ confirmation, progress notice and the
four-button block; `final_entities` is frozen. -/
theorem pc_finalize_reduction (conv : Conv) (parsed : Option JValue)
    (gen : Except Unit String) (s desc : String)
    (hmsg : conv.messages.isEmpty = false)
    (hintent : dataGet (validate_llm_response parsed) "intent" =
      .str "hiring_request")
    (hfm : firstMissing (entitiesOf (validate_llm_response parsed)) = none)
    (hjt : entGet (entitiesOf (validate_llm_response parsed)) "job_title" =
      .str s)
    (hs : pyStrip s ≠ "")
    (hgen : gen = .ok desc) :
    process_conversation conv parsed gen =
      ⟨[(if conv.editing.getD false then
          OutMsg.editConfirmation (required_entities.map fun f =>
            (f, entGetNA (entitiesOf (validate_llm_response parsed)) f,
             entGetNA (conv.original_entities.getD []) f))
         else
          OutMsg.plainConfirmation (required_entities.map fun f =>
            (f, entGetNA (entitiesOf (validate_llm_response parsed)) f))),
        .generating, .jdButtons (pyReplaceBold desc) jdApprovalButtons],
       { conv with final_entities := some (entitiesOf (validate_llm_response parsed)) },
       false, true⟩ := by
  have hquota : (dataGet (validate_llm_response parsed) "intent").isStrLit
      "quota_exceeded" = false := by rw [hintent]; rfl
  have hh1 : (dataGet (validate_llm_response parsed) "intent").isStrLit
      "hiring_request" = true := by rw [hintent]; rfl
  have hh2 := validate_obj_hasEntities parsed
  have hse : s ≠ "" := fun h => hs (by rw [h]; rfl)
  subst hgen
  unfold process_conversation
  dsimp only
  simp only [hmsg, Bool.false_eq_true, if_false, hquota, hh1, hh2,
    Bool.true_and, if_true, hfm, hjt]
  simp [pyFalsy, hse, hs]

/-! ### C2: malformed classifier output degrades to the default response -/

/-- C2: for every malformed classifier output — invalid JSON (`none`), a
non-object top level, a missing `intent` or `entities` field, or a
non-mapping `entities` field (exactly the cases where `wellFormed` is
false) — `validate_llm_response` returns (and does not raise: it is a
total function) exactly the default `{intent: "not_hiring", entities: all
five keys null}`. -/
theorem C2_malformed_degrades_to_default (parsed : Option JValue)
    (h : wellFormed parsed = false) :
    validate_llm_response parsed = defaultResponse ∧
    dataGet (validate_llm_response parsed) "intent" = .str "not_hiring" ∧
    ∀ e ∈ required_entities,
      jlookup (entitiesOf (validate_llm_response parsed)) e = some .null := by
  have hmain : validate_llm_response parsed = defaultResponse := by
    match parsed with
    | none => rfl
    | some .null => rfl
    | some (.bool b) => rfl
    | some (.num n) => rfl
    | some (.str s) => rfl
    | some (.arr xs) => rfl
    | some (.obj kvs) =>
        by_cases h1 : hasKey kvs "intent"
        · by_cases h2 : hasKey kvs "entities"
          · simp only [wellFormed, h1, h2, Bool.true_and] at h
            unfold validate_llm_response validateBody
            simp only [h1, h2, Bool.not_true, Bool.false_eq_true, if_false]
            cases hv : jlookup kvs "entities" with
            | none => simp [hasKey, hv] at h2
            | some v => cases v <;> simp_all [hv]
          · unfold validate_llm_response validateBody
            simp [h1, h2]
        · unfold validate_llm_response validateBody
          simp [h1]
  refine ⟨hmain, by rw [hmain]; rfl, ?_⟩
  rw [hmain]
  intro e he
  simp only [required_entities, List.mem_cons, List.not_mem_nil, or_false] at he
  rcases he with rfl | rfl | rfl | rfl | rfl <;> rfl

/-- C2 witness: the theorem applied to an unparseable classifier output. -/
theorem C2_malformed_degrades_to_default_witness :
    validate_llm_response none = defaultResponse ∧
    dataGet (validate_llm_response none) "intent" = .str "not_hiring" ∧
    ∀ e ∈ required_entities,
      jlookup (entitiesOf (validate_llm_response none)) e = some .null :=
  C2_malformed_degrades_to_default none rfl

/-! ### C9: what the validator does (and does not) normalize -/

/-- C9 counterexample: the validator accepts an output whose `job_title`
is the empty string and keeps that empty string as a present value — so it
is false that "a present value is never an empty string". -/
theorem C9_counterexample_empty_string_kept :
    wellFormed exEmptyTitleParsed = true ∧
    jlookup (entitiesOf (validate_llm_response exEmptyTitleParsed))
      "job_title" = some (.str "") :=
  ⟨rfl, rfl⟩

/-- C9 (amended): for every classifier output accepted by the validator,
the resulting entities mapping contains all five recognized keys; keys
absent from the input are defaulted to null, and keys present in the
input keep their original value unchanged — the validator performs no
normalization of empty-string or non-string values. -/
theorem C9_amended_validator_patches_only_missing
    (kvs ents : List (String × JValue))
    (hI : hasKey kvs "intent" = true)
    (hE : jlookup kvs "entities" = some (.obj ents)) :
    entitiesOf (validate_llm_response (some (.obj kvs))) = patchEntities ents ∧
    (∀ e ∈ required_entities, hasKey (patchEntities ents) e = true) ∧
    (∀ e ∈ required_entities, jlookup ents e = none →
      jlookup (patchEntities ents) e = some .null) ∧
    (∀ e v, jlookup ents e = some v →
      jlookup (patchEntities ents) e = some v) := by
  have hKE : hasKey kvs "entities" = true := by simp [hasKey, hE]
  have hval : validate_llm_response (some (.obj kvs)) =
      .obj (jinsert kvs "entities" (.obj (patchEntities ents))) := by
    unfold validate_llm_response validateBody
    simp [hI, hKE, hE]
  refine ⟨?_, ?_, ?_, ?_⟩
  · rw [hval]
    simp [entitiesOf, jlookup_jinsert_self]
  · intro e he
    exact hasKey_foldl_of_mem required_entities ents e he
  · intro e he hn
    exact jlookup_foldl_null_of_missing required_entities ents e he hn
  · intro e v hv
    exact jlookup_foldl_preserve required_entities ents e v hv

/-- C9 witness: the amended theorem applied to an output carrying only an
empty-string `job_title`; the other four keys are backfilled as null and
the empty string is preserved. -/
theorem C9_amended_witness :
    entitiesOf (validate_llm_response (some (.obj
      [("intent", .str "hiring_request"),
       ("entities", .obj [("job_title", .str "")])]))) =
      patchEntities [("job_title", .str "")] ∧
    (∀ e ∈ required_entities,
      hasKey (patchEntities [("job_title", .str "")]) e = true) ∧
    (∀ e ∈ required_entities, jlookup [("job_title", .str "")] e = none →
      jlookup (patchEntities [("job_title", .str "")]) e = some .null) ∧
    (∀ e v, jlookup [("job_title", .str "")] e = some v →
      jlookup (patchEntities [("job_title", .str "")]) e = some v) :=
  C9_amended_validator_patches_only_missing
    [("intent", .str "hiring_request"),
     ("entities", .obj [("job_title", .str "")])]
    [("job_title", .str "")] rfl rfl

/-! ### Store and interaction helper lemmas -/

theorem Store.set_self (st : Store) (ch : String) (c : Conv) :
    (st.set ch c) ch = some c := by simp [Store.set]

theorem Store.set_ne (st : Store) (ch : String) (c : Conv) (ch' : String)
    (h : ch' ≠ ch) : (st.set ch c) ch' = st ch' := by simp [Store.set, h]

theorem Store.erase_self (st : Store) (ch : String) :
    (st.erase ch) ch = none := by simp [Store.erase]

theorem Store.erase_ne (st : Store) (ch : String) (ch' : String)
    (h : ch' ≠ ch) : (st.erase ch) ch' = st ch' := by simp [Store.erase, h]

theorem finalEntsTruthy_some (ents : List (String × JValue)) (hne : ents ≠ []) :
    finalEntsTruthy (some ents) = true := by
  cases ents with
  | nil => exact absurd rfl hne
  | cons a l => rfl

theorem pc_final_entities_cases (conv : Conv) (parsed : Option JValue)
    (gen : Except Unit String) :
    (process_conversation conv parsed gen).conv.final_entities =
      conv.final_entities ∨
    (process_conversation conv parsed gen).conv.final_entities =
      some (entitiesOf (validate_llm_response parsed)) := by
  unfold process_conversation
  dsimp only
  repeat' split
  all_goals simp

theorem hi_edit_reduction (store : Store) (recently : String → Bool)
    (channel user : String) (postRes : Except Unit (Bool × String))
    (draftRes : Except Unit Bool) (conv : Conv)
    (ents : List (String × JValue))
    (hstore : store channel = some conv) (huser : user = conv.user_id)
    (hfe : conv.final_entities = some ents) (hne : ents ≠ []) :
    handle_interaction store recently channel user "jd_edit" postRes draftRes =
      ⟨Store.set store channel
         { conv with processed := some false, editing := some true, original_entities := some ents },
       recently, [.editPrompt]⟩ := by
  unfold handle_interaction
  rw [hstore]
  simp [huser, hfe, finalEntsTruthy_some ents hne]

theorem hi_post_success_reduction (store : Store) (recently : String → Bool)
    (channel user link : String) (draftRes : Except Unit Bool) (conv : Conv)
    (ents : List (String × JValue))
    (hstore : store channel = some conv) (huser : user = conv.user_id)
    (hfe : conv.final_entities = some ents) (hne : ents ≠ []) :
    handle_interaction store recently channel user "jd_post_yes"
        (.ok (true, link)) draftRes =
      ⟨store.erase channel,
       fun ch => if ch = channel then true else recently ch,
       [.postSuccess link, .postEnded]⟩ := by
  unfold handle_interaction
  rw [hstore]
  simp [huser, hfe, finalEntsTruthy_some ents hne]

theorem hi_draft_success_reduction (store : Store) (recently : String → Bool)
    (channel user : String) (postRes : Except Unit (Bool × String))
    (conv : Conv) (ents : List (String × JValue))
    (hstore : store channel = some conv) (huser : user = conv.user_id)
    (hfe : conv.final_entities = some ents) (hne : ents ≠ []) :
    handle_interaction store recently channel user "jd_draft" postRes
        (.ok true) =
      ⟨store.erase channel,
       fun ch => if ch = channel then true else recently ch,
       [.draftSuccess true, .draftEnded]⟩ := by
  unfold handle_interaction
  rw [hstore]
  simp [huser, hfe, finalEntsTruthy_some ents hne]

theorem hi_post_failure_reduction (store : Store) (recently : String → Bool)
    (channel user reason : String) (draftRes : Except Unit Bool) (conv : Conv)
    (ents : List (String × JValue))
    (hstore : store channel = some conv) (huser : user = conv.user_id)
    (hfe : conv.final_entities = some ents) (hne : ents ≠ []) :
    handle_interaction store recently channel user "jd_post_yes"
        (.ok (false, reason)) draftRes =
      ⟨store.erase channel, recently, [.postFailure reason]⟩ := by
  unfold handle_interaction
  rw [hstore]
  simp [huser, hfe, finalEntsTruthy_some ents hne]

theorem hi_post_raise_reduction (store : Store) (recently : String → Bool)
    (channel user : String) (draftRes : Except Unit Bool) (conv : Conv)
    (ents : List (String × JValue))
    (hstore : store channel = some conv) (huser : user = conv.user_id)
    (hfe : conv.final_entities = some ents) (hne : ents ≠ []) :
    handle_interaction store recently channel user "jd_post_yes"
        (.error ()) draftRes =
      ⟨store.erase channel, recently, [.postException]⟩ := by
  unfold handle_interaction
  rw [hstore]
  simp [huser, hfe, finalEntsTruthy_some ents hne]

theorem hi_draft_failure_reduction (store : Store) (recently : String → Bool)
    (channel user : String) (postRes : Except Unit (Bool × String))
    (conv : Conv) (ents : List (String × JValue))
    (hstore : store channel = some conv) (huser : user = conv.user_id)
    (hfe : conv.final_entities = some ents) (hne : ents ≠ []) :
    handle_interaction store recently channel user "jd_draft" postRes
        (.ok false) =
      ⟨store.erase channel, recently, [.draftFailure]⟩ := by
  unfold handle_interaction
  rw [hstore]
  simp [huser, hfe, finalEntsTruthy_some ents hne]

theorem hi_draft_raise_reduction (store : Store) (recently : String → Bool)
    (channel user : String) (postRes : Except Unit (Bool × String))
    (conv : Conv) (ents : List (String × JValue))
    (hstore : store channel = some conv) (huser : user = conv.user_id)
    (hfe : conv.final_entities = some ents) (hne : ents ≠ []) :
    handle_interaction store recently channel user "jd_draft" postRes
        (.error ()) =
      ⟨store.erase channel, recently, [.draftFailure]⟩ := by
  unfold handle_interaction
  rw [hstore]
  simp [huser, hfe, finalEntsTruthy_some ents hne]

theorem hi_lost_context_reduction (store : Store) (recently : String → Bool)
    (channel user action : String) (postRes : Except Unit (Bool × String))
    (draftRes : Except Unit Bool) (conv : Conv)
    (hstore : store channel = some conv) (huser : user = conv.user_id)
    (hfe : finalEntsTruthy conv.final_entities = false) :
    handle_interaction store recently channel user action postRes draftRes =
      ⟨store, recently, [.lostContext]⟩ := by
  unfold handle_interaction
  rw [hstore]
  simp [huser, hfe]

/-! ### C1: hiring-request branch of `process_conversation` -/

/-- C1: for a conversation (not in edit mode) classified as a
`hiring_request`: if an entity is missing, the engine emits the fixed
follow-up question for the first missing attribute in priority order and
leaves the state unchanged; if none is missing and `job_title` is a
non-blank string (and generation succeeds), it sends the confirmation,
the progress notice and the message carrying the four action buttons
(`jd_post_yes`, `jd_draft`, `jd_edit`, `jd_no`), freezing
`final_entities`; if all are present but `job_title` is blank, it emits
the clarification request and leaves the state unchanged. -/
theorem C1_hiring_request_flow (conv : Conv) (parsed : Option JValue)
    (gen : Except Unit String)
    (hmsg : conv.messages.isEmpty = false)
    (hedit : conv.editing.getD false = false)
    (hintent : dataGet (validate_llm_response parsed) "intent" =
      .str "hiring_request") :
    (∀ e, firstMissing (entitiesOf (validate_llm_response parsed)) = some e →
      (process_conversation conv parsed gen).msgs =
        [.followUp e (questionFor e)] ∧
      (process_conversation conv parsed gen).conv = conv) ∧
    (∀ s desc, firstMissing (entitiesOf (validate_llm_response parsed)) = none →
      entGet (entitiesOf (validate_llm_response parsed)) "job_title" = .str s →
      pyStrip s ≠ "" → gen = .ok desc →
      (process_conversation conv parsed gen).msgs =
        [.plainConfirmation (required_entities.map fun f =>
           (f, entGetNA (entitiesOf (validate_llm_response parsed)) f)),
         .generating, .jdButtons (pyReplaceBold desc) jdApprovalButtons] ∧
      (process_conversation conv parsed gen).conv =
        { conv with final_entities := some (entitiesOf (validate_llm_response parsed)) }) ∧
    (∀ s, firstMissing (entitiesOf (validate_llm_response parsed)) = none →
      entGet (entitiesOf (validate_llm_response parsed)) "job_title" = .str s →
      pyStrip s = "" →
      (process_conversation conv parsed gen).msgs = [.clarifyJobTitle] ∧
      (process_conversation conv parsed gen).conv = conv) := by
  refine ⟨?_, ?_, ?_⟩
  · intro e hfm
    rw [pc_followup_reduction conv parsed gen e hmsg hintent hfm]
    exact ⟨rfl, rfl⟩
  · intro s desc hfm hjt hs hgen
    rw [pc_finalize_reduction conv parsed gen s desc hmsg hintent hfm hjt hs hgen]
    simp [hedit]
  · intro s hfm hjt hs
    rw [pc_blank_reduction conv parsed gen s hmsg hintent hfm hjt hs]
    exact ⟨rfl, rfl⟩

/-- C1 witness: a hiring request with only `job_title` extracted gets the
fixed follow-up question for `experience` (the first missing attribute)
and the state is unchanged. -/
theorem C1_hiring_request_flow_witness :
    (process_conversation exConvTwoMsgs exMissingParsed (.ok "jd")).msgs =
      [.followUp "experience" (questionFor "experience")] ∧
    (process_conversation exConvTwoMsgs exMissingParsed (.ok "jd")).conv =
      exConvTwoMsgs :=
  (C1_hiring_request_flow exConvTwoMsgs exMissingParsed (.ok "jd")
    rfl rfl rfl).1 "experience" rfl

/-! ### C10: a duplicate of any stored message is a complete no-op -/

/-- C10: an inbound message from the stored owner whose text equals any
message already in the conversation's history (not only the most recent
one) leaves the store completely unchanged, makes no classifier call and
sends no outbound message. -/
theorem C10_duplicate_anywhere_is_noop (store : Store)
    (channel user text : String) (parsed : Option JValue)
    (gen : Except Unit String) (conv : Conv)
    (hstore : store channel = some conv) (huser : user = conv.user_id)
    (hdup : conv.messages.contains text = true) :
    process_slack_events store channel user text parsed gen =
      ⟨store, [], false⟩ := by
  unfold process_slack_events
  rw [hstore]
  dsimp only
  rw [if_pos huser, if_pos hdup]

/-- C10 witness: resending the first (non-latest) history message of a
live two-message conversation is a no-op. -/
theorem C10_duplicate_anywhere_is_noop_witness :
    process_slack_events exStoreTwoMsgs "C" "U1" "we are hiring a dev"
      exGoodParsed (.ok "jd") = ⟨exStoreTwoMsgs, [], false⟩ :=
  C10_duplicate_anywhere_is_noop exStoreTwoMsgs "C" "U1" "we are hiring a dev"
    exGoodParsed (.ok "jd") exConvTwoMsgs rfl rfl rfl

/-! ### C4: the duplicate check is against the whole history -/

/-- C4 counterexample: with stored history
`["we are hiring a dev", "3 years"]`, the owner's message
`"we are hiring a dev"` is NOT a duplicate of the last stored message
(`"3 years"`), yet the handler makes no classifier call, sends nothing and
leaves the store unchanged — refuting the claim that the classifier is
invoked whenever the text differs from the last stored message. -/
theorem C4_counterexample_earlier_duplicate_skipped :
    exConvTwoMsgs.messages.getLast? = some "3 years" ∧
    ("we are hiring a dev" ≠ "3 years") ∧
    process_slack_events exStoreTwoMsgs "C" "U1" "we are hiring a dev"
      exGoodParsed (.ok "jd") = ⟨exStoreTwoMsgs, [], false⟩ :=
  ⟨rfl, by decide, by
    unfold process_slack_events
    rw [show exStoreTwoMsgs "C" = some exConvTwoMsgs from rfl]
    simp [exConvTwoMsgs]⟩

/-- C4 (amended): the owner's message is appended to the history and the
classifier invoked if and only if the text is not already contained
anywhere in the stored history; a message equal to any stored message
(not just the last) is a no-op with no classifier call and no outbound
message. -/
theorem C4_amended_duplicate_check_whole_history (store : Store)
    (channel user text : String) (parsed : Option JValue)
    (gen : Except Unit String) (conv : Conv)
    (hstore : store channel = some conv) (huser : user = conv.user_id) :
    (conv.messages.contains text = true →
      process_slack_events store channel user text parsed gen =
        ⟨store, [], false⟩) ∧
    (conv.messages.contains text = false →
      (process_slack_events store channel user text parsed gen).llmCalled =
        true ∧
      ∃ c', (process_slack_events store channel user text parsed gen).store
          channel = some c' ∧
        c'.messages = conv.messages ++ [text]) := by
  constructor
  · intro hdup
    unfold process_slack_events
    rw [hstore]
    dsimp only
    rw [if_pos huser, if_pos hdup]
  · intro hdup
    unfold process_slack_events
    rw [hstore]
    dsimp only
    rw [if_pos huser, if_neg (by rw [hdup]; exact Bool.false_ne_true)]
    exact ⟨pc_llmCalled _ parsed gen (by simp), _,
      Store.set_self store channel _, pc_messages _ parsed gen⟩

/-- C4 witness for the amended claim: a genuinely new message is appended
and the classifier is invoked. -/
theorem C4_amended_witness :
    (process_slack_events exStoreTwoMsgs "C" "U1" "Node skills"
      exGoodParsed (.ok "jd")).llmCalled = true ∧
    ∃ c', (process_slack_events exStoreTwoMsgs "C" "U1" "Node skills"
        exGoodParsed (.ok "jd")).store "C" = some c' ∧
      c'.messages = exConvTwoMsgs.messages ++ ["Node skills"] :=
  (C4_amended_duplicate_check_whole_history exStoreTwoMsgs "C" "U1"
    "Node skills" exGoodParsed (.ok "jd") exConvTwoMsgs rfl rfl).2 rfl

/-! ### C5: a different user replaces the conversation outright -/

/-- C5: when a user different from the stored owner sends a message, the
channel's conversation is replaced by a fresh one owned by the new user
whose history is exactly the single new message, with no editing flag, no
entity snapshot and no processed flag carried over; `final_entities` is
either absent or freshly computed from the new classification, and every
other channel of the store is untouched (so each channel still holds at
most one live conversation). -/
theorem C5_new_owner_resets_conversation (store : Store)
    (channel user text : String) (parsed : Option JValue)
    (gen : Except Unit String) (conv : Conv)
    (hstore : store channel = some conv) (huser : user ≠ conv.user_id) :
    ∃ c', (process_slack_events store channel user text parsed gen).store
        channel = some c' ∧
      c'.user_id = user ∧
      c'.messages = [text] ∧
      c'.editing = none ∧
      c'.original_entities = none ∧
      c'.processed = none ∧
      (c'.final_entities = none ∨
        c'.final_entities = some (entitiesOf (validate_llm_response parsed))) ∧
      (∀ ch, ch ≠ channel →
        (process_slack_events store channel user text parsed gen).store ch =
          store ch) := by
  unfold process_slack_events
  rw [hstore]
  simp only [huser, if_neg, ite_false, if_false]
  refine ⟨_, Store.set_self store channel _,
    pc_user_id _ parsed gen, pc_messages _ parsed gen,
    pc_editing _ parsed gen, pc_original_entities _ parsed gen,
    pc_processed _ parsed gen, pc_final_entities_cases _ parsed gen,
    fun ch hch => Store.set_ne store channel _ ch hch⟩

/-- C5 witness: user `U2` speaking in `U1`'s channel gets a fresh
single-message conversation. -/
theorem C5_new_owner_resets_conversation_witness :
    ∃ c', (process_slack_events exStoreTwoMsgs "C" "U2" "hello"
        exMissingParsed (.ok "jd")).store "C" = some c' ∧
      c'.user_id = "U2" ∧
      c'.messages = ["hello"] ∧
      c'.editing = none ∧
      c'.original_entities = none ∧
      c'.processed = none ∧
      (c'.final_entities = none ∨
        c'.final_entities =
          some (entitiesOf (validate_llm_response exMissingParsed))) ∧
      (∀ ch, ch ≠ "C" →
        (process_slack_events exStoreTwoMsgs "C" "U2" "hello"
          exMissingParsed (.ok "jd")).store ch = exStoreTwoMsgs ch) :=
  C5_new_owner_resets_conversation exStoreTwoMsgs "C" "U2" "hello"
    exMissingParsed (.ok "jd") exConvTwoMsgs rfl (by decide)

/-! ### C6: post/draft success completes and destroys the conversation -/

/-- C6: pressing post (resp. draft) as the owner with non-empty
`final_entities` when the collaborator succeeds emits the confirmation
carrying the returned reference (the post URL, resp. the value returned
by the draft save), marks the channel in the recently-completed set, and
removes the conversation from the store; other channels are untouched. -/
theorem C6_post_draft_success_completes (store : Store)
    (recently : String → Bool) (channel user link : String)
    (postRes : Except Unit (Bool × String)) (draftRes : Except Unit Bool)
    (conv : Conv) (ents : List (String × JValue))
    (hstore : store channel = some conv) (huser : user = conv.user_id)
    (hfe : conv.final_entities = some ents) (hne : ents ≠ []) :
    ((handle_interaction store recently channel user "jd_post_yes"
        (.ok (true, link)) draftRes).msgs = [.postSuccess link, .postEnded] ∧
     (handle_interaction store recently channel user "jd_post_yes"
        (.ok (true, link)) draftRes).store channel = none ∧
     (handle_interaction store recently channel user "jd_post_yes"
        (.ok (true, link)) draftRes).recently channel = true ∧
     (∀ ch, ch ≠ channel →
       (handle_interaction store recently channel user "jd_post_yes"
          (.ok (true, link)) draftRes).store ch = store ch ∧
       (handle_interaction store recently channel user "jd_post_yes"
          (.ok (true, link)) draftRes).recently ch = recently ch)) ∧
    ((handle_interaction store recently channel user "jd_draft" postRes
        (.ok true)).msgs = [.draftSuccess true, .draftEnded] ∧
     (handle_interaction store recently channel user "jd_draft" postRes
        (.ok true)).store channel = none ∧
     (handle_interaction store recently channel user "jd_draft" postRes
        (.ok true)).recently channel = true ∧
     (∀ ch, ch ≠ channel →
       (handle_interaction store recently channel user "jd_draft" postRes
          (.ok true)).store ch = store ch ∧
       (handle_interaction store recently channel user "jd_draft" postRes
          (.ok true)).recently ch = recently ch)) := by
  rw [hi_post_success_reduction store recently channel user link draftRes
    conv ents hstore huser hfe hne,
    hi_draft_success_reduction store recently channel user postRes
    conv ents hstore huser hfe hne]
  refine ⟨⟨rfl, Store.erase_self store channel, by simp, ?_⟩,
    ⟨rfl, Store.erase_self store channel, by simp, ?_⟩⟩ <;>
    exact fun ch hch =>
      ⟨Store.erase_ne store channel ch hch, by simp [hch]⟩

/-- C6 witness: a successful post on a confirming conversation. -/
theorem C6_post_draft_success_completes_witness :
    ((handle_interaction exConfirmStore (fun _ => false) "C" "U1"
        "jd_post_yes" (.ok (true, "https://x/1")) (.ok true)).msgs =
      [.postSuccess "https://x/1", .postEnded] ∧
     (handle_interaction exConfirmStore (fun _ => false) "C" "U1"
        "jd_post_yes" (.ok (true, "https://x/1")) (.ok true)).store "C" =
      none ∧
     (handle_interaction exConfirmStore (fun _ => false) "C" "U1"
        "jd_post_yes" (.ok (true, "https://x/1")) (.ok true)).recently "C" =
      true ∧
     (∀ ch, ch ≠ "C" →
       (handle_interaction exConfirmStore (fun _ => false) "C" "U1"
          "jd_post_yes" (.ok (true, "https://x/1")) (.ok true)).store ch =
        exConfirmStore ch ∧
       (handle_interaction exConfirmStore (fun _ => false) "C" "U1"
          "jd_post_yes" (.ok (true, "https://x/1")) (.ok true)).recently ch =
        (fun _ => false : String → Bool) ch)) ∧
    ((handle_interaction exConfirmStore (fun _ => false) "C" "U1"
        "jd_draft" (.ok (true, "https://x/1")) (.ok true)).msgs =
      [.draftSuccess true, .draftEnded] ∧
     (handle_interaction exConfirmStore (fun _ => false) "C" "U1"
        "jd_draft" (.ok (true, "https://x/1")) (.ok true)).store "C" =
      none ∧
     (handle_interaction exConfirmStore (fun _ => false) "C" "U1"
        "jd_draft" (.ok (true, "https://x/1")) (.ok true)).recently "C" =
      true ∧
     (∀ ch, ch ≠ "C" →
       (handle_interaction exConfirmStore (fun _ => false) "C" "U1"
          "jd_draft" (.ok (true, "https://x/1")) (.ok true)).store ch =
        exConfirmStore ch ∧
       (handle_interaction exConfirmStore (fun _ => false) "C" "U1"
          "jd_draft" (.ok (true, "https://x/1")) (.ok true)).recently ch =
        (fun _ => false : String → Bool) ch)) :=
  C6_post_draft_success_completes exConfirmStore (fun _ => false) "C" "U1"
    "https://x/1" (.ok (true, "https://x/1")) (.ok true) exConfirmConv
    exEntities rfl rfl rfl (List.cons_ne_nil _ _)

/-! ### C3: collaborator failure does NOT keep the conversation alive -/

/-- C3 counterexample: pressing post as the owner of a live confirming
conversation when the poster returns failure emits the error message but
DELETES the conversation from the store (the handler falls through to the
`del` at `app.py` line 320), refuting the claim that the conversation
remains live so the buttons can be pressed again. -/
theorem C3_counterexample_failure_destroys :
    exConfirmStore "C" = some exConfirmConv ∧
    (handle_interaction exConfirmStore (fun _ => false) "C" "U1"
      "jd_post_yes" (.ok (false, "boom")) (.ok true)).msgs =
      [.postFailure "boom"] ∧
    (handle_interaction exConfirmStore (fun _ => false) "C" "U1"
      "jd_post_yes" (.ok (false, "boom")) (.ok true)).store "C" = none := by
  have h := hi_post_failure_reduction exConfirmStore (fun _ => false) "C"
    "U1" "boom" (.ok true) exConfirmConv exEntities rfl rfl rfl
    (List.cons_ne_nil _ _)
  exact ⟨rfl, by rw [h], by rw [h]; exact Store.erase_self exConfirmStore "C"⟩

/-- C3 (amended): when post or draft is pressed by the owner with
non-empty `final_entities` and the collaborator fails (returns failure or
raises), the engine emits the corresponding error message and then
REMOVES the conversation from the store (the recently-completed set is
unchanged); the same buttons cannot be retried because the conversation
is gone. -/
theorem C3_amended_failure_emits_error_and_destroys (store : Store)
    (recently : String → Bool) (channel user reason : String)
    (postRes : Except Unit (Bool × String)) (draftRes : Except Unit Bool)
    (conv : Conv) (ents : List (String × JValue))
    (hstore : store channel = some conv) (huser : user = conv.user_id)
    (hfe : conv.final_entities = some ents) (hne : ents ≠ []) :
    (handle_interaction store recently channel user "jd_post_yes"
        (.ok (false, reason)) draftRes =
      ⟨store.erase channel, recently, [.postFailure reason]⟩) ∧
    (handle_interaction store recently channel user "jd_post_yes"
        (.error ()) draftRes =
      ⟨store.erase channel, recently, [.postException]⟩) ∧
    (handle_interaction store recently channel user "jd_draft" postRes
        (.ok false) =
      ⟨store.erase channel, recently, [.draftFailure]⟩) ∧
    (handle_interaction store recently channel user "jd_draft" postRes
        (.error ()) =
      ⟨store.erase channel, recently, [.draftFailure]⟩) ∧
    (store.erase channel) channel = none :=
  ⟨hi_post_failure_reduction store recently channel user reason draftRes
     conv ents hstore huser hfe hne,
   hi_post_raise_reduction store recently channel user draftRes
     conv ents hstore huser hfe hne,
   hi_draft_failure_reduction store recently channel user postRes
     conv ents hstore huser hfe hne,
   hi_draft_raise_reduction store recently channel user postRes
     conv ents hstore huser hfe hne,
   Store.erase_self store channel⟩

/-- C3 witness: the amended behavior at a concrete failing post. -/
theorem C3_amended_witness :
    (handle_interaction exConfirmStore (fun _ => false) "C" "U1"
        "jd_post_yes" (.ok (false, "boom")) (.ok true) =
      ⟨Store.erase exConfirmStore "C", (fun _ => false),
       [.postFailure "boom"]⟩) ∧
    (handle_interaction exConfirmStore (fun _ => false) "C" "U1"
        "jd_post_yes" (.error ()) (.ok true) =
      ⟨Store.erase exConfirmStore "C", (fun _ => false),
       [.postException]⟩) ∧
    (handle_interaction exConfirmStore (fun _ => false) "C" "U1"
        "jd_draft" (.ok (false, "boom")) (.ok false) =
      ⟨Store.erase exConfirmStore "C", (fun _ => false),
       [.draftFailure]⟩) ∧
    (handle_interaction exConfirmStore (fun _ => false) "C" "U1"
        "jd_draft" (.ok (false, "boom")) (.error ()) =
      ⟨Store.erase exConfirmStore "C", (fun _ => false),
       [.draftFailure]⟩) ∧
    (Store.erase exConfirmStore "C") "C" = none :=
  C3_amended_failure_emits_error_and_destroys exConfirmStore (fun _ => false)
    "C" "U1" "boom" (.ok (false, "boom")) (.ok true) exConfirmConv exEntities
    rfl rfl rfl (List.cons_ne_nil _ _)

/-! ### C7: missing `final_entities` does NOT destroy the conversation -/

/-- C7 counterexample: a button press by the owner of a live conversation
without `final_entities` emits the lost-context notice but the
conversation stays in the store (`handle_interaction` returns at `app.py`
line 253 without deleting), refuting the claim that it is destroyed. -/
theorem C7_counterexample_conversation_survives :
    (handle_interaction exNoFinalStore (fun _ => false) "C" "U1"
      "jd_post_yes" (.ok (true, "url")) (.ok true)).msgs = [.lostContext] ∧
    (handle_interaction exNoFinalStore (fun _ => false) "C" "U1"
      "jd_post_yes" (.ok (true, "url")) (.ok true)).store "C" =
      some exNoFinalConv := by
  have h := hi_lost_context_reduction exNoFinalStore (fun _ => false) "C"
    "U1" "jd_post_yes" (.ok (true, "url")) (.ok true) exNoFinalConv
    rfl rfl rfl
  exact ⟨by rw [h], by rw [h]; rfl⟩

/-- C7 (amended): when any button action is pressed by the stored owner of
a live conversation whose `final_entities` is absent (or empty), the
engine emits the error notice telling the user to start over and leaves
the store and the recently-completed set completely unchanged — the
conversation is NOT removed. -/
theorem C7_amended_lost_context_keeps_conversation (store : Store)
    (recently : String → Bool) (channel user action : String)
    (postRes : Except Unit (Bool × String)) (draftRes : Except Unit Bool)
    (conv : Conv)
    (hstore : store channel = some conv) (huser : user = conv.user_id)
    (hfe : finalEntsTruthy conv.final_entities = false) :
    handle_interaction store recently channel user action postRes draftRes =
      ⟨store, recently, [.lostContext]⟩ :=
  hi_lost_context_reduction store recently channel user action postRes
    draftRes conv hstore huser hfe

/-- C7 witness: the amended behavior at a concrete button press. -/
theorem C7_amended_witness :
    handle_interaction exNoFinalStore (fun _ => false) "C" "U1" "jd_draft"
      (.ok (true, "url")) (.ok true) =
      ⟨exNoFinalStore, (fun _ => false), [.lostContext]⟩ :=
  C7_amended_lost_context_keeps_conversation exNoFinalStore (fun _ => false)
    "C" "U1" "jd_draft" (.ok (true, "url")) (.ok true) exNoFinalConv
    rfl rfl rfl

/-! ### C8: edit snapshots entities and the next finalize shows the diff -/

/-- C8: pressing edit with non-empty `final_entities` snapshots the
current entities into `original_entities`, clears the processed flag,
sets editing mode, keeps the conversation live with its entities intact,
leaves the recently-completed set alone; and on the next finalize (after
a further owner message) the engine renders, for every one of the five
attributes in order, the new value paired with the snapshotted old value
(the `(was: X)` rendering) instead of the plain list. -/
theorem C8_edit_snapshots_and_diffs (store : Store)
    (recently : String → Bool) (channel user : String)
    (postRes : Except Unit (Bool × String)) (draftRes : Except Unit Bool)
    (conv : Conv) (ents : List (String × JValue))
    (hstore : store channel = some conv) (huser : user = conv.user_id)
    (hfe : conv.final_entities = some ents) (hne : ents ≠ []) :
    (handle_interaction store recently channel user "jd_edit" postRes
        draftRes =
      ⟨Store.set store channel
         { conv with processed := some false, editing := some true, original_entities := some ents },
       recently, [.editPrompt]⟩) ∧
    (∀ text parsed gen s desc,
      dataGet (validate_llm_response parsed) "intent" =
        .str "hiring_request" →
      firstMissing (entitiesOf (validate_llm_response parsed)) = none →
      entGet (entitiesOf (validate_llm_response parsed)) "job_title" =
        .str s →
      pyStrip s ≠ "" → gen = .ok desc →
      (process_conversation
        { conv with messages := conv.messages ++ [text], processed := some false, editing := some true, original_entities := some ents }
        parsed gen).msgs =
        [.editConfirmation (required_entities.map fun f =>
           (f, entGetNA (entitiesOf (validate_llm_response parsed)) f,
            entGetNA ents f)),
         .generating, .jdButtons (pyReplaceBold desc) jdApprovalButtons]) := by
  constructor
  · exact hi_edit_reduction store recently channel user postRes draftRes
      conv ents hstore huser hfe hne
  · intro text parsed gen s desc hintent hfm hjt hs hgen
    rw [pc_finalize_reduction _ parsed gen s desc (by simp) hintent hfm hjt
      hs hgen]
    simp

/-- C8 witness: edit pressed on a concrete confirming conversation, then a
finalize over a full re-extraction renders the five `(was: X)` pairs. -/
theorem C8_edit_snapshots_and_diffs_witness :
    (handle_interaction exConfirmStore (fun _ => false) "C" "U1" "jd_edit"
        (.ok (true, "url")) (.ok true) =
      ⟨Store.set exConfirmStore "C"
         { exConfirmConv with processed := some false, editing := some true, original_entities := some exEntities },
       (fun _ => false), [.editPrompt]⟩) ∧
    (process_conversation
      { exConfirmConv with messages := exConfirmConv.messages ++ ["make it senior"], processed := some false, editing := some true, original_entities := some exEntities }
      exGoodParsed (.ok "jd")).msgs =
      [.editConfirmation (required_entities.map fun f =>
         (f, entGetNA (entitiesOf (validate_llm_response exGoodParsed)) f,
          entGetNA exEntities f)),
       .generating, .jdButtons (pyReplaceBold "jd") jdApprovalButtons] := by
  have h := C8_edit_snapshots_and_diffs exConfirmStore (fun _ => false) "C"
    "U1" (.ok (true, "url")) (.ok true) exConfirmConv exEntities rfl rfl rfl
    (List.cons_ne_nil _ _)
  exact ⟨h.1, h.2 "make it senior" exGoodParsed (.ok "jd")
    "Backend Developer" "jd" rfl rfl rfl (by decide) rfl⟩

end GdgJob
